import Mathlib

/-!
Verification of the period-aggregation and metric-derivation core of the
Garmin dashboard (`app.py`): unit converters (`format_hours`, `format_pace`,
`mmss_to_minutes`), the metric aggregator (`calc_period`), the daily
activity aggregator (`_agg`), the correlation engine, and the metric
formatter (`format_metric`).

Conventions of the shallow embedding:
* Python text values are modelled as `List Char`.
* Python floats are modelled as exact rationals `ℚ`; a missing value
  (`None` / `NaN`) is `Option.none`.
* Functions that can raise an uncaught exception return `Except Unit`.
* Calendar dates are modelled by their proleptic-Gregorian ordinal
  (`ℤ`, with day 1 = 0001-01-01), exactly as Python's `date.toordinal`.
-/

namespace Garmin

/-- Decidable equality for `Except` results, used to evaluate the
embedded functions at concrete inputs. -/
instance {ε α : Type} [DecidableEq ε] [DecidableEq α] :
    DecidableEq (Except ε α) := fun a b =>
  match a, b with
  | .ok x, .ok y =>
    if h : x = y then .isTrue (by rw [h])
    else .isFalse (fun c => h (by injection c))
  | .error e, .error f =>
    if h : e = f then .isTrue (by rw [h])
    else .isFalse (fun c => h (by injection c))
  | .ok _, .error _ => .isFalse (fun c => by injection c)
  | .error _, .ok _ => .isFalse (fun c => by injection c)

/-- A Python scalar value as it reaches the converter functions:
`None`, a float `NaN`, a number, or a string. -/
inductive PyVal where
  | vNone
  | vNaN
  | num (q : ℚ)
  | str (s : List Char)
deriving DecidableEq

/-- `pd.isna` on a scalar: true for `None` and `NaN`. -/
def pdIsna : PyVal → Bool
  | .vNone => true
  | .vNaN => true
  | _ => false

/-- Python `value == ""`: true only for the empty string. -/
def eqEmptyStr : PyVal → Bool
  | .str [] => true
  | _ => false

/-- Whitespace characters stripped by Python's `str.strip` / `float`. -/
def isSpaceChar (c : Char) : Bool :=
  c = ' ' || c = '\t' || c = '\n' || c = '\r'

/-- Strip leading and trailing whitespace (Python `str.strip`). -/
def trimChars (cs : List Char) : List Char :=
  ((cs.dropWhile isSpaceChar).reverse.dropWhile isSpaceChar).reverse

/-- Python `str.split(sep)` for a one-character separator:
`"".split(sep) = [""]`, and separators delimit (possibly empty) fields. -/
def splitOnChar (sep : Char) : List Char → List (List Char)
  | [] => [[]]
  | c :: rest =>
    let r := splitOnChar sep rest
    if c = sep then [] :: r
    else
      match r with
      | [] => [[c]]
      | h :: t => (c :: h) :: t

/-- Numeric value of a digit string (most significant first). -/
def natVal (cs : List Char) : ℕ :=
  cs.foldl (fun a c => 10 * a + (c.toNat - 48)) 0

/-- The character of a decimal digit. -/
def digitChar (n : ℕ) : Char := Char.ofNat (48 + n)

/-- Decimal rendering of a natural number (Python `str(int)` for `n ≥ 0`). -/
def natToChars (n : ℕ) : List Char :=
  if _h : n < 10 then [digitChar n]
  else natToChars (n / 10) ++ [digitChar (n % 10)]
termination_by n
decreasing_by exact Nat.div_lt_self (by omega) (by omega)

/-- Decimal rendering of an integer (Python `str(int)`). -/
def intStr (z : ℤ) : List Char :=
  if z < 0 then '-' :: natToChars z.natAbs else natToChars z.natAbs

/-- Python format spec `{:02d}`: pad with a zero to width 2. -/
def pad02 (z : ℤ) : List Char :=
  let s := intStr z
  if s.length < 2 then '0' :: s else s

/-- The decimal fragment of Python's `float(str)`: optional surrounding
whitespace, an optional sign, digits with at most one decimal point and at
least one digit.  (Exponents, `inf`, `nan` and underscores are outside the
fragment this program feeds it.)  Raises (`.error`) on anything else. -/
def parseFloat (cs : List Char) : Except Unit ℚ :=
  let t := trimChars cs
  let p : ℚ × List Char :=
    match t with
    | [] => (1, [])
    | c :: rest =>
      if c = '-' then (-1, rest) else if c = '+' then (1, rest) else (1, t)
  match splitOnChar '.' p.2 with
  | [a] =>
    if a ≠ [] ∧ a.all Char.isDigit then .ok (p.1 * natVal a) else .error ()
  | [a, b] =>
    if (a ++ b) ≠ [] ∧ a.all Char.isDigit ∧ b.all Char.isDigit then
      .ok (p.1 * ((natVal a : ℚ) + (natVal b : ℚ) / 10 ^ b.length))
    else .error ()
  | _ => .error ()

/-- Python `float(x)` on a scalar: numbers pass through, strings are
parsed, `None` raises `TypeError`.  (`NaN` never reaches this function in
the modelled control flow: every caller guards with `pd.isna` first; it is
modelled as an error because `ℚ` has no `NaN`.) -/
def pyFloat : PyVal → Except Unit ℚ
  | .num q => .ok q
  | .str s => parseFloat s
  | .vNone => .error ()
  | .vNaN => .error ()

/-- Python `int(float)`: truncation toward zero. -/
def pyTrunc (q : ℚ) : ℤ :=
  if 0 ≤ q then ⌊q⌋ else ⌈q⌉

/-- Python `round` to an integer: round half to even. -/
def pyRound (q : ℚ) : ℤ :=
  let f := ⌊q⌋
  if q - f < 1 / 2 then f
  else if 1 / 2 < q - f then f + 1
  else if f % 2 = 0 then f else f + 1

/-- `format_hours` (app.py lines 433-441): formats decimal hours as
`"HH:MM"`; `None`/`NaN`/empty give `"-"`; every conversion is inside the
`try`, so the function is total. -/
def format_hours (v : PyVal) : List Char :=
  if pdIsna v || eqEmptyStr v then ['-']
  else
    match pyFloat v with
    | .error _ => ['-']
    | .ok q =>
      let horas := pyTrunc q
      let minutos := pyRound ((q - horas) * 60)
      pad02 horas ++ ':' :: pad02 minutos

/-- `format_pace` (app.py lines 444-452): formats decimal minutes as
`"M:SS"`.  NOTE the guard `pd.isna(value) or value == "" or
float(value) == 0` runs BEFORE the `try`, so the `float` conversion of a
non-numeric string raises an uncaught `ValueError` (`.error`). -/
def format_pace (v : PyVal) : Except Unit (List Char) :=
  if pdIsna v || eqEmptyStr v then .ok ['-']
  else
    match pyFloat v with
    | .error _ => .error ()
    | .ok q =>
      if q = 0 then .ok ['-']
      else
        let minutos := pyTrunc q
        let segundos := pyRound ((q - minutos) * 60)
        .ok (intStr minutos ++ ':' :: pad02 segundos)

/-- `mmss_to_minutes` (app.py lines 468-484): parses `"mm:ss"` or
`"h:mm:ss"` (comma tolerated as decimal separator) into decimal minutes;
numbers pass through; anything malformed yields `none` (the whole body is
inside `try/except`). -/
def mmss_to_minutes (x : PyVal) : Option ℚ :=
  if pdIsna x || eqEmptyStr x then none
  else
    match x with
    | .num q => some q
    | .str s0 =>
      let s := (trimChars s0).map (fun c => if c = ',' then '.' else c)
      match splitOnChar ':' s with
      | [p1, p2] =>
        match parseFloat p1, parseFloat p2 with
        | .ok m, .ok sec => some (m + sec / 60)
        | _, _ => none
      | [p1, p2, p3] =>
        match parseFloat p1, parseFloat p2, parseFloat p3 with
        | .ok h, .ok m, .ok sec => some (h * 60 + m + sec / 60)
        | _, _, _ => none
      | _ => (parseFloat s).toOption
    | _ => none

/-! ### Calendar (Python `datetime.date`, proleptic Gregorian) -/

/-- Gregorian leap year. -/
def isLeap (y : ℕ) : Bool :=
  y % 4 = 0 && (y % 100 ≠ 0 || y % 400 = 0)

/-- Days in a month. -/
def daysInMonth (y m : ℕ) : ℕ :=
  if m = 2 then (if isLeap y then 29 else 28)
  else if m = 4 ∨ m = 6 ∨ m = 9 ∨ m = 11 then 30
  else 31

/-- Days in year `y` before the first of month `m`. -/
def daysBeforeMonth (y m : ℕ) : ℕ :=
  ((List.range (m - 1)).map (fun i => daysInMonth y (i + 1))).sum

/-- Days before January 1 of year `y` (year 1 is day 1). -/
def daysBeforeYear (y : ℕ) : ℕ :=
  365 * (y - 1) + (y - 1) / 4 - (y - 1) / 100 + (y - 1) / 400

/-- `date(y, m, d).toordinal()`: day number with 0001-01-01 = 1. -/
def ymdToOrd (y m d : ℕ) : ℤ :=
  (daysBeforeYear y + daysBeforeMonth y m + d : ℕ)

/-- A Python `datetime.date`. -/
structure PyDate where
  year : ℕ
  month : ℕ
  day : ℕ
deriving DecidableEq

/-- The ordinal of a `PyDate`. -/
def PyDate.ord (t : PyDate) : ℤ := ymdToOrd t.year t.month t.day

/-- `date.weekday()`: Monday = 0.  Ordinal 1 (0001-01-01) is a Monday. -/
def PyDate.weekday (t : PyDate) : ℤ := (t.ord - 1) % 7

/-! ### The table model (pandas `DataFrame`) -/

/-- A cell of the spreadsheet-backed table: a number, a text value, a
date value, or a missing value (`NaN`). -/
inductive Cell where
  | num (q : ℚ)
  | str (s : List Char)
  | date (y m d : ℕ)
  | null
deriving DecidableEq

/-- `pd.to_numeric(·, errors="coerce")` on one cell: numbers pass
through, numeric strings are parsed, everything else coerces to `NaN`. -/
def pdToNumeric : Cell → Option ℚ
  | .num q => some q
  | .str s => (parseFloat s).toOption
  | .date _ _ _ => none
  | .null => none

/-- Parse an ISO `"YYYY-MM-DD"` string to an ordinal, the date-string
format the spreadsheet layer writes. -/
def parseDateChars (cs : List Char) : Option ℤ :=
  match splitOnChar '-' (trimChars cs) with
  | [a, b, c] =>
    if a ≠ [] ∧ a.all Char.isDigit ∧ b ≠ [] ∧ b.all Char.isDigit ∧
        c ≠ [] ∧ c.all Char.isDigit then
      let y := natVal a
      let m := natVal b
      let d := natVal c
      if 1 ≤ m ∧ m ≤ 12 ∧ 1 ≤ d ∧ d ≤ daysInMonth y m ∧ 1 ≤ y then
        some (ymdToOrd y m d)
      else none
    else none
  | _ => none

/-- `pd.to_datetime(·, errors="coerce")` on one cell, truncated to a
calendar date: date cells pass through, ISO date strings are parsed, and
anything unparseable coerces to `NaT` (`none`). -/
def pdToDatetime : Cell → Option ℤ
  | .date y m d => some (ymdToOrd y m d)
  | .str s => parseDateChars s
  | .num _ => none
  | .null => none

/-- A row maps column names to cells. -/
def Row := List (String × Cell)

/-- Cell lookup; pandas guarantees a cell (possibly `NaN`) for every
column of the schema. -/
def getCell (r : Row) (c : String) : Cell :=
  (List.lookup c r).getD .null

/-- A `DataFrame`: a schema and a list of rows. -/
structure DF where
  cols : List String
  rows : List Row

/-- Keep the rows whose mask entry is `true` (pandas boolean indexing). -/
def maskFilter (rows : List Row) (mask : List Bool) : List Row :=
  ((rows.zip mask).filter (fun p => p.2)).map (fun p => p.1)

/-! ### `calc_period` (app.py lines 385-430) -/

/-- Lines 427-430: `None` on an empty value set, else the sum when
`mode == "sum"` and the arithmetic mean otherwise. -/
def aggVals (mode : String) (vals : List ℚ) : Option ℚ :=
  if vals.isEmpty then none
  else some (if mode = "sum" then vals.sum else vals.sum / vals.length)

/-- Lines 402-413: resolution of the period start from `today` (read from
the system clock at line 402) and the parsed date column.  `TOTAL` (the
`else` branch) is the minimum parsed date; on an all-`NaT` column pandas
gives `NaT.date() = NaT`, modelled as `none`. -/
def resolve_start (dates : List (Option ℤ)) (freq : String) (today : PyDate) :
    Option ℤ :=
  if freq = "WTD" then some (today.ord - today.weekday)
  else if freq = "MTD" then some (ymdToOrd today.year today.month 1)
  else if freq = "QTD" then
    let q := (today.month - 1) / 3 + 1
    some (ymdToOrd today.year (3 * (q - 1) + 1) 1)
  else if freq = "YTD" then some (ymdToOrd today.year 1 1)
  else (dates.filterMap id).min?

/-- Line 415: one mask entry.  `NaT` on either side compares `False`;
note there is no upper bound against `today`. -/
def dateMask (start : Option ℤ) (d : Option ℤ) : Bool :=
  match start, d with
  | some s, some d0 => decide (s ≤ d0)
  | _, _ => false

/-- Lines 418-420: the co-occurrence filter keeps rows whose
`filter_col` value is strictly positive; it applies only when
`filter_col` is truthy (non-`None`, non-empty) and in the schema. -/
def coFilter (df : DF) (filter_col : Option String) (subset : List Row) :
    List Row :=
  match filter_col with
  | some fc =>
    if fc ≠ "" ∧ fc ∈ df.cols then
      subset.filter (fun r =>
        match pdToNumeric (getCell r fc) with
        | some v => decide (0 < v)
        | none => false)
    else subset
  | none => subset

/-- `calc_period` (app.py lines 385-430).  `dt.date.today()` (line 402)
is modelled as the explicit parameter `today`.  Returns `.error` only for
the `KeyError` of a missing date column (line 399); otherwise `.ok` of
the metric or `none`. -/
def calc_period (df : DF) (col : String) (freq : String) (today : PyDate)
    (date_col : String := "Data") (only_positive : Bool := false)
    (mode : String := "mean") (filter_col : Option String := none) :
    Except Unit (Option ℚ) :=
  if col ∈ df.cols then
    if date_col ∈ df.cols then
      let dates := df.rows.map (fun r => pdToDatetime (getCell r date_col))
      let start := resolve_start dates freq today
      let mask := dates.map (dateMask start)
      let subset := maskFilter df.rows mask
      let subset2 := coFilter df filter_col subset
      let vals := subset2.filterMap (fun r => pdToNumeric (getCell r col))
      let vals2 := if only_positive then vals.filter (fun v => decide (0 < v))
                   else vals
      .ok (aggVals mode vals2)
    else .error ()
  else .ok none

/-- Modelled from the spec: the variant of `calc_period` whose date
filter is the one the specification states, "retain only rows with
date ≥ start (inclusive) and date ≤ today" — the same pipeline with the
additional upper bound `date ≤ today`, which the code does not have. -/
def calc_period_spec (df : DF) (col : String) (freq : String)
    (today : PyDate) (date_col : String := "Data")
    (only_positive : Bool := false) (mode : String := "mean")
    (filter_col : Option String := none) : Except Unit (Option ℚ) :=
  if col ∈ df.cols then
    if date_col ∈ df.cols then
      let dates := df.rows.map (fun r => pdToDatetime (getCell r date_col))
      let start := resolve_start dates freq today
      let mask := dates.map (fun d => dateMask start d &&
        match d with
        | some d0 => decide (d0 ≤ today.ord)
        | none => false)
      let subset := maskFilter df.rows mask
      let subset2 := coFilter df filter_col subset
      let vals := subset2.filterMap (fun r => pdToNumeric (getCell r col))
      let vals2 := if only_positive then vals.filter (fun v => decide (0 < v))
                   else vals
      .ok (aggVals mode vals2)
    else .error ()
  else .ok none

/-! ### `format_metric` (app.py lines 457-466) -/

/-- Chunk the reversed digit string in threes, separating the chunks
with commas. -/
def groupRev (cs : List Char) : List Char :=
  if _h : cs = [] then []
  else cs.take 3 ++
    (if cs.drop 3 = [] then [] else ',' :: groupRev (cs.drop 3))
termination_by cs.length
decreasing_by
  rename_i h
  cases cs with
  | nil => exact absurd rfl h
  | cons a t => simp [List.length_drop]; omega

/-- Group a digit string in threes from the right with commas
(Python format spec `{:,}`). -/
def groupThousands (cs : List Char) : List Char :=
  (groupRev cs.reverse).reverse

/-- Python `f"{value:,.0f}"`: round half to even to an integer, comma
thousands separators, keeping the sign of a negative zero. -/
def fmtThousands (q : ℚ) : List Char :=
  let n := pyRound q
  let ds := groupThousands (natToChars n.natAbs)
  if n < 0 ∨ (n = 0 ∧ q < 0) then '-' :: ds else ds

/-- Python `f"{value:.2f}"`: round half to even to two decimals. -/
def fmtFixed2 (q : ℚ) : List Char :=
  let n := pyRound (q * 100)
  let ip := natToChars (n.natAbs / 100)
  let fr := n.natAbs % 100
  let fp := if fr < 10 then '0' :: natToChars fr else natToChars fr
  let s := ip ++ '.' :: fp
  if n < 0 ∨ (n = 0 ∧ q < 0) then '-' :: s else s

/-- `format_metric` (app.py lines 457-466): `None` renders as `"-"`;
otherwise dispatch on the declared output format.  The `"pace"` branch
calls `format_pace`, whose guard can raise, hence the `Except`. -/
def format_metric (value : Option ℚ) (fmt : String) :
    Except Unit (List Char) :=
  match value with
  | none => .ok ['-']
  | some v =>
    if fmt = "time" then .ok (format_hours (.num v))
    else if fmt = "pace" then format_pace (.num v)
    else if fmt = "int" then .ok (fmtThousands v)
    else .ok (fmtFixed2 v)

/-! ### `_agg` (app.py lines 555-569), the daily activity aggregator -/

/-- One activity record restricted to the five numeric columns `_agg`
reads, after the `pd.to_numeric(errors="coerce")` of lines 548-550
(`none` = missing). -/
structure ActRow where
  distancia : Option ℚ
  duracao : Option ℚ
  calorias : Option ℚ
  fcMedia : Option ℚ
  vo2Max : Option ℚ

/-- `g["Distância (km)"].fillna(0).sum()`. -/
def distSum (g : List ActRow) : ℚ :=
  (g.map (fun r => r.distancia.getD 0)).sum

/-- `g["Duração (min)"].fillna(0).sum()`. -/
def durSum (g : List ActRow) : ℚ :=
  (g.map (fun r => r.duracao.getD 0)).sum

/-- `Series.mean(skipna=True)`: `NaN` (`none`) when no value is
present. -/
def optMean (vs : List (Option ℚ)) : Option ℚ :=
  let v := vs.filterMap id
  if v.isEmpty then none else some (v.sum / v.length)

/-- The aggregate row `_agg` produces for one `(date, type)` group.
Cells are `Option ℚ`: `none` is a `NaN`/`None` cell. -/
structure AggRow where
  distancia : ℚ
  duracao : ℚ
  calorias : Option ℚ
  fcMedia : Option ℚ
  vo2Max : Option ℚ
  paceNumDaily : Option ℚ

/-- `_agg` (app.py lines 555-569).  Calories use
`Series.sum(skipna=True)`, which in pandas (default `min_count=0`) is
`0.0` — a number, never `NaN` — even when every value is missing. -/
def _agg (g : List ActRow) : AggRow :=
  let dist_sum := distSum g
  let dur_sum := durSum g
  let cal_sum : ℚ := (g.filterMap (fun r => r.calorias)).sum
  let fc_mean := optMean (g.map (fun r => r.fcMedia))
  let vo2_mean := optMean (g.map (fun r => r.vo2Max))
  let pace_num_daily :=
    if dist_sum ≠ 0 ∧ 0 < dist_sum then some (dur_sum / dist_sum) else none
  { distancia := dist_sum
    duracao := dur_sum
    calorias := some cal_sum
    fcMedia := fc_mean
    vo2Max := vo2_mean
    paceNumDaily := pace_num_daily }

/-! ### The correlation engine (app.py lines 1027-1033) -/

/-- Line 1031: coerce every selected column to numeric and drop any row
with a missing value in any selected column (complete case).  A row here
is the list of the selected columns' cells. -/
def corrCC (rows : List (List Cell)) : List (List ℚ) :=
  (((rows.map (fun r => r.map pdToNumeric)).filter
    (fun r => r.all Option.isSome)).map (fun r => r.filterMap id))

/-- The values of column `i` over the complete-case rows. -/
def colV (rs : List (List ℚ)) (i : ℕ) : List ℚ :=
  rs.map (fun r => r.getD i 0)

/-- Arithmetic mean of a column. -/
def meanL (xs : List ℚ) : ℚ := xs.sum / xs.length

/-- Sum of products of deviations from the means (the `covxy`
accumulator of pandas `nancorr`). -/
def covL (xs ys : List ℚ) : ℚ :=
  (List.zipWith (fun x y => (x - meanL xs) * (y - meanL ys)) xs ys).sum

/-- Sum of squared deviations from the mean (the `ssqdm` accumulator of
pandas `nancorr`). -/
def ssqdm (xs : List ℚ) : ℚ :=
  (xs.map (fun x => (x - meanL xs) * (x - meanL xs))).sum

/-- One entry of `DataFrame.corr()` (pandas `nancorr`): `NaN` (`none`)
when the divisor `sqrt(ssqdmx * ssqdmy)` is zero, else
`covxy / sqrt(ssqdmx * ssqdmy)`.  The square root forces `ℝ`. -/
noncomputable def corrEntry (xs ys : List ℚ) : Option ℝ :=
  if ssqdm xs * ssqdm ys = 0 then none
  else some ((covL xs ys : ℝ) / Real.sqrt ((ssqdm xs : ℝ) * (ssqdm ys : ℝ)))

/-- `corr_matrix = df_corr.corr()` (line 1033) over the complete-case
rows of the selected columns. -/
noncomputable def corr_matrix (rows : List (List Cell)) (i j : ℕ) :
    Option ℝ :=
  corrEntry (colV (corrCC rows) i) (colV (corrCC rows) j)

/-! ### Definitions used to state the claims -/

/-- The date-filter predicate `calc_period` actually applies to a row:
its date parses and is `≥` the resolved start.  There is no comparison
against `today` here. -/
def dateKeep (df : DF) (freq : String) (today : PyDate) (r : Row) : Bool :=
  dateMask
    (resolve_start (df.rows.map (fun r => pdToDatetime (getCell r "Data")))
      freq today)
    (pdToDatetime (getCell r "Data"))

/-- The co-occurrence filter of lines 418-420 as a row predicate. -/
def coKeep (df : DF) (filter_col : Option String) (r : Row) : Bool :=
  match filter_col with
  | some fc =>
    if fc ≠ "" ∧ fc ∈ df.cols then
      match pdToNumeric (getCell r fc) with
      | some v => decide (0 < v)
      | none => false
    else true
  | none => true

/-- The positivity filter of lines 424-425 as a value predicate. -/
def posKeep (only_positive : Bool) (v : ℚ) : Bool :=
  !only_positive || decide (0 < v)

/-- The multiset of values `calc_period` aggregates, written as one pass
of row filters: parseable date `≥` start, co-occurrence filter,
positivity filter.  (No row is dropped for being dated after today.) -/
def retainedVals (df : DF) (col freq : String) (today : PyDate)
    (only_positive : Bool) (filter_col : Option String) : List ℚ :=
  ((df.rows.filter (fun r => dateKeep df freq today r &&
      coKeep df filter_col r)).filterMap
    (fun r => pdToNumeric (getCell r col))).filter (posKeep only_positive)

/-- Python `f"{s:02d}"` for a natural number of seconds. -/
def pad2nat (s : ℕ) : List Char :=
  if s < 10 then '0' :: natToChars s else natToChars s

/-- The canonical `"mm:ss"` rendering of `m` minutes and `s` seconds:
minutes as decimal digits, seconds two-digit.  This is exactly the shape
`format_pace` emits. -/
def mmssChars (m s : ℕ) : List Char :=
  natToChars m ++ ':' :: pad2nat s

/-! ## Helper lemmas -/

theorem maskFilter_map (rows : List Row) (f : Row → Bool) :
    maskFilter rows (rows.map f) = rows.filter f := by
  induction rows with
  | nil => rfl
  | cons r t ih =>
    by_cases h : f r <;>
      simp [maskFilter, List.filter_cons, h] at ih ⊢ <;> exact ih

theorem mem_of_mem_maskFilter {rows : List Row} {mask : List Bool}
    {r : Row} (h : r ∈ maskFilter rows mask) : r ∈ rows := by
  unfold maskFilter at h
  simp only [List.mem_map, List.mem_filter] at h
  obtain ⟨⟨a, b⟩, ⟨hab, _⟩, rfl⟩ := h
  exact (List.of_mem_zip hab).1

theorem mem_of_mem_coFilter {df : DF} {fc : Option String} {l : List Row}
    {r : Row} (h : r ∈ coFilter df fc l) : r ∈ l := by
  cases fc with
  | none => exact h
  | some c =>
    simp only [coFilter] at h
    by_cases hc : c ≠ "" ∧ c ∈ df.cols
    · rw [if_pos hc] at h
      exact (List.mem_filter.mp h).1
    · rwa [if_neg hc] at h

theorem coFilter_filter (df : DF) (fc : Option String) (rows : List Row)
    (p : Row → Bool) :
    coFilter df fc (rows.filter p) =
      rows.filter (fun r => p r && coKeep df fc r) := by
  cases fc with
  | none =>
    simp [coFilter, coKeep]
  | some c =>
    simp only [coFilter, coKeep]
    by_cases hc : c ≠ "" ∧ c ∈ df.cols
    · rw [if_pos hc]
      simp only [if_pos hc, List.filter_filter]
      congr 1
      funext a
      rw [Bool.and_comm]
    · rw [if_neg hc]
      simp only [if_neg hc, Bool.and_true]

theorem posKeep_false : posKeep false = fun _ => true := by
  funext v
  simp [posKeep]

theorem posKeep_true : posKeep true = fun v => decide (0 < v) := by
  funext v
  simp [posKeep]

theorem filter_posKeep (op : Bool) (vals : List ℚ) :
    (if op then vals.filter (fun v => decide (0 < v)) else vals) =
      vals.filter (posKeep op) := by
  cases op
  · rw [if_neg (by decide), posKeep_false, List.filter_true]
  · rw [if_pos (by decide), posKeep_true]

theorem aggVals_of_ne_sum {mode : String} (h : mode ≠ "sum") (vals : List ℚ) :
    aggVals mode vals = aggVals "mean" vals := by
  unfold aggVals
  rw [if_neg h, if_neg (by decide : ¬("mean" = "sum"))]

theorem dateMask_none_right (st : Option ℤ) : dateMask st none = false := by
  cases st <;> rfl

theorem zipWith_const_self {α β : Type} (f : α → α → β) (l : List α) :
    List.zipWith f l l = l.map (fun x => f x x) := by
  induction l with
  | nil => rfl
  | cons a t ih => simp [ih]

theorem covL_self (xs : List ℚ) : covL xs xs = ssqdm xs := by
  unfold covL ssqdm
  rw [zipWith_const_self]

theorem covL_comm (xs ys : List ℚ) : covL xs ys = covL ys xs := by
  unfold covL
  have key : ∀ (l1 l2 : List ℚ) (a b : ℚ),
      List.zipWith (fun x y => (x - a) * (y - b)) l1 l2 =
        List.zipWith (fun x y => (x - b) * (y - a)) l2 l1 := by
    intro l1
    induction l1 with
    | nil => intro l2 a b; cases l2 <;> rfl
    | cons x t ih =>
      intro l2 a b
      cases l2 with
      | nil => rfl
      | cons y t2 =>
        show ((x - a) * (y - b)) :: _ = ((y - b) * (x - a)) :: _
        rw [mul_comm, ih]
  rw [key]

theorem aggVals_nil (mode : String) : aggVals mode [] = none := rfl

theorem digitChar_isDigit {n : ℕ} (h : n < 10) :
    (digitChar n).isDigit = true := by
  interval_cases n <;> decide

theorem digitChar_toNat {n : ℕ} (h : n < 10) :
    (digitChar n).toNat = 48 + n := by
  interval_cases n <;> decide

theorem natToChars_ne_nil (n : ℕ) : natToChars n ≠ [] := by
  rw [natToChars]
  split
  · exact List.cons_ne_nil _ _
  · exact fun h => List.cons_ne_nil _ _ (List.append_eq_nil.mp h).2

theorem natToChars_all_digit (n : ℕ) :
    ∀ c ∈ natToChars n, c.isDigit = true := by
  induction n using Nat.strong_induction_on with
  | _ n ih =>
    rw [natToChars]
    split
    · intro c hc
      rw [List.mem_singleton.mp hc]
      exact digitChar_isDigit (by omega)
    · intro c hc
      rcases List.mem_append.mp hc with hm | hm
      · exact ih (n / 10) (Nat.div_lt_self (by omega) (by omega)) c hm
      · rw [List.mem_singleton.mp hm]
        exact digitChar_isDigit (Nat.mod_lt n (by omega))

theorem natVal_append (xs : List Char) (c : Char) :
    natVal (xs ++ [c]) = 10 * natVal xs + (c.toNat - 48) := by
  unfold natVal
  rw [List.foldl_append]
  rfl

theorem natVal_natToChars (n : ℕ) : natVal (natToChars n) = n := by
  induction n using Nat.strong_induction_on with
  | _ n ih =>
    rw [natToChars]
    split
    · rename_i h
      show 10 * 0 + ((digitChar n).toNat - 48) = n
      rw [digitChar_toNat h]
      omega
    · rename_i h
      rw [natVal_append, ih (n / 10) (Nat.div_lt_self (by omega) (by omega)),
        digitChar_toNat (Nat.mod_lt n (by omega))]
      omega

theorem isDigit_not_space {c : Char} (h : c.isDigit = true) :
    isSpaceChar c = false := by
  simp only [isSpaceChar, Bool.or_eq_false_iff, decide_eq_false_iff_not]
  refine ⟨⟨⟨?_, ?_⟩, ?_⟩, ?_⟩ <;> rintro rfl <;> exact absurd h (by decide)

theorem isDigit_ne {c c0 : Char} (h : c.isDigit = true)
    (h0 : c0.isDigit = false) : c ≠ c0 := by
  rintro rfl
  rw [h] at h0
  exact absurd h0 (by decide)

theorem dropWhile_of_forall {p : Char → Bool} {l : List Char}
    (h : ∀ c ∈ l, p c = false) : l.dropWhile p = l := by
  cases l with
  | nil => rfl
  | cons a t =>
    rw [List.dropWhile_cons, if_neg]
    rw [h a (List.mem_cons_self a t)]
    exact fun hc => absurd hc (by decide)

theorem trimChars_eq_self {cs : List Char}
    (h : ∀ c ∈ cs, isSpaceChar c = false) : trimChars cs = cs := by
  unfold trimChars
  rw [dropWhile_of_forall h,
    dropWhile_of_forall (fun c hc => h c (List.mem_reverse.mp hc)),
    List.reverse_reverse]

theorem splitOnChar_eq_single {sep : Char} {cs : List Char} (h : sep ∉ cs) :
    splitOnChar sep cs = [cs] := by
  induction cs with
  | nil => rfl
  | cons c t ih =>
    have hcs : ¬(c = sep) := fun hh => h (hh ▸ List.mem_cons_self c t)
    simp only [splitOnChar]
    rw [if_neg hcs, ih (fun hm => h (List.mem_cons_of_mem _ hm))]

theorem splitOnChar_append {sep : Char} {xs : List Char} (ys : List Char)
    (h : sep ∉ xs) :
    splitOnChar sep (xs ++ sep :: ys) = xs :: splitOnChar sep ys := by
  induction xs with
  | nil =>
    simp [splitOnChar]
  | cons c t ih =>
    have hcs : ¬(c = sep) := fun hh => h (hh ▸ List.mem_cons_self c t)
    simp only [List.cons_append, splitOnChar, List.append_eq]
    rw [if_neg hcs, ih (fun hm => h (List.mem_cons_of_mem _ hm))]

theorem parseFloat_of_digits {cs : List Char} (hne : cs ≠ [])
    (hd : ∀ c ∈ cs, c.isDigit = true) :
    parseFloat cs = .ok ((natVal cs : ℚ)) := by
  obtain ⟨c, t, rfl⟩ := List.exists_cons_of_ne_nil hne
  have htrim : trimChars (c :: t) = c :: t :=
    trimChars_eq_self (fun x hx => isDigit_not_space (hd x hx))
  have hc : c.isDigit = true := hd c (List.mem_cons_self c t)
  have hdot : '.' ∉ c :: t :=
    fun hm => absurd (hd '.' hm) (by decide)
  simp only [parseFloat, htrim]
  rw [if_neg (isDigit_ne hc (by decide)), if_neg (isDigit_ne hc (by decide))]
  rw [splitOnChar_eq_single hdot]
  show (if c :: t ≠ [] ∧ (c :: t).all Char.isDigit = true then
      Except.ok ((1 : ℚ) * ((natVal (c :: t) : ℚ)))
    else Except.error ()) = Except.ok ((natVal (c :: t) : ℚ))
  rw [if_pos ⟨List.cons_ne_nil c t, List.all_eq_true.mpr hd⟩, one_mul]

theorem parseFloat_natToChars (n : ℕ) :
    parseFloat (natToChars n) = .ok ((n : ℚ)) := by
  rw [parseFloat_of_digits (natToChars_ne_nil n) (natToChars_all_digit n),
    natVal_natToChars]

theorem natVal_cons_zero (l : List Char) : natVal ('0' :: l) = natVal l :=
  rfl

theorem pad2nat_all_digit (s : ℕ) : ∀ c ∈ pad2nat s, c.isDigit = true := by
  unfold pad2nat
  split
  · intro c hc
    rcases List.mem_cons.mp hc with rfl | hm
    · decide
    · exact natToChars_all_digit s c hm
  · exact natToChars_all_digit s

theorem pad2nat_ne_nil (s : ℕ) : pad2nat s ≠ [] := by
  unfold pad2nat
  split
  · exact List.cons_ne_nil _ _
  · exact natToChars_ne_nil s

theorem parseFloat_pad2nat (s : ℕ) :
    parseFloat (pad2nat s) = .ok ((s : ℚ)) := by
  rw [parseFloat_of_digits (pad2nat_ne_nil s) (pad2nat_all_digit s)]
  unfold pad2nat
  split
  · rw [natVal_cons_zero, natVal_natToChars]
  · rw [natVal_natToChars]

theorem natToChars_length_lt_two_iff (n : ℕ) :
    (natToChars n).length < 2 ↔ n < 10 := by
  rw [natToChars]
  split
  · rename_i h
    simp [h]
  · rename_i h
    constructor
    · intro hl
      exfalso
      have hlen : 1 ≤ (natToChars (n / 10)).length :=
        List.length_pos.mpr (natToChars_ne_nil (n / 10))
      rw [List.length_append, List.length_singleton] at hl
      omega
    · intro hn
      exact absurd hn h

theorem intStr_natCast (n : ℕ) : intStr (n : ℤ) = natToChars n := by
  unfold intStr
  rw [if_neg (Int.natCast_nonneg n).not_lt, Int.natAbs_ofNat]

theorem pad02_natCast (s : ℕ) : pad02 (s : ℤ) = pad2nat s := by
  unfold pad02 pad2nat
  rw [intStr_natCast]
  by_cases h : s < 10
  · rw [if_pos ((natToChars_length_lt_two_iff s).mpr h), if_pos h]
  · rw [if_neg (fun hl => h ((natToChars_length_lt_two_iff s).mp hl)),
      if_neg h]

theorem pyRound_natCast (n : ℕ) : pyRound (n : ℚ) = n := by
  unfold pyRound
  simp only [Int.floor_natCast, Int.cast_natCast, sub_self]
  norm_num

theorem floor_add_frac (m s : ℕ) (hs : s ≤ 59) :
    ⌊(m : ℚ) + (s : ℚ) / 60⌋ = m := by
  have h1 : (0 : ℚ) ≤ (s : ℚ) / 60 := by positivity
  have h2 : (s : ℚ) / 60 < 1 := by
    rw [div_lt_one (by norm_num)]
    exact_mod_cast Nat.lt_of_le_of_lt hs (by norm_num)
  rw [show ((m : ℚ) + (s : ℚ) / 60) = ((m : ℤ) : ℚ) + (s : ℚ) / 60 by
      push_cast; ring,
    Int.floor_int_add, Int.floor_eq_zero_iff.mpr ⟨h1, h2⟩, add_zero]

theorem eqEmptyStr_str_ne_nil {cs : List Char} (h : cs ≠ []) :
    eqEmptyStr (.str cs) = false := by
  cases cs with
  | nil => exact absurd rfl h
  | cons a t => rfl

theorem mmssChars_ne_nil (m s : ℕ) : mmssChars m s ≠ [] := by
  unfold mmssChars
  intro h
  exact natToChars_ne_nil m (List.append_eq_nil.mp h).1

/-! ## Claim theorems -/

/-- Claim C1, amended: after resolving the period start, `calc_period`
retains exactly the rows whose date parses and is `≥` the start — there
is no upper cutoff at today, so rows dated after today do contribute to
the returned sum or mean.  `retainedVals` packages the full retention
predicate (date `≥` start, co-occurrence filter, positivity filter). -/
theorem calc_period_retention (df : DF) (col freq : String)
    (today : PyDate) (op : Bool) (mode : String) (fc : Option String)
    (hc : col ∈ df.cols) (hd : "Data" ∈ df.cols) :
    calc_period df col freq today "Data" op mode fc =
      .ok (aggVals mode (retainedVals df col freq today op fc)) := by
  unfold calc_period
  rw [if_pos hc, if_pos hd]
  simp only [List.map_map, maskFilter_map, coFilter_filter, filter_posKeep,
    retainedVals, dateKeep, Function.comp]

/-- Claim C1 witness: the characterization applied at a concrete
table. -/
theorem calc_period_retention_witness :
    calc_period
        ⟨["Data", "X"], [[("Data", Cell.date 2024 1 2), ("X", Cell.num 5)]]⟩
        "X" "WTD" ⟨2024, 1, 1⟩ "Data" false "sum" none =
      .ok (aggVals "sum" (retainedVals
        ⟨["Data", "X"], [[("Data", Cell.date 2024 1 2), ("X", Cell.num 5)]]⟩
        "X" "WTD" ⟨2024, 1, 1⟩ false none)) :=
  calc_period_retention
    ⟨["Data", "X"], [[("Data", Cell.date 2024 1 2), ("X", Cell.num 5)]]⟩
    "X" "WTD" ⟨2024, 1, 1⟩ false "sum" none (by decide) (by decide)

/-- Claim C1 counterexample: with today = Monday 2024-01-01 (so the WTD
start is 2024-01-01), a single row dated 2024-01-02 — after today —
contributes: the code sums it (`some 5`), while the spec's filter
"date ≥ start and date ≤ today" (`calc_period_spec`) would discard it
and return null. -/
theorem calc_period_future_row_counterexample :
    calc_period
        ⟨["Data", "X"], [[("Data", Cell.date 2024 1 2), ("X", Cell.num 5)]]⟩
        "X" "WTD" ⟨2024, 1, 1⟩ "Data" false "sum" none = .ok (some 5) ∧
    calc_period_spec
        ⟨["Data", "X"], [[("Data", Cell.date 2024 1 2), ("X", Cell.num 5)]]⟩
        "X" "WTD" ⟨2024, 1, 1⟩ "Data" false "sum" none = .ok none := by
  refine ⟨?_, ?_⟩ <;> with_unfolding_all decide

/-- Claim C4: with period `TOTAL` on a table whose date column has no
parseable date (in particular an empty table), `calc_period` returns
null and raises nothing: the pandas chain gives `NaT.date() = NaT`, the
mask is all-`False`, the value set is empty, and the result is `None`. -/
theorem calc_period_total_empty_null (df : DF) (col : String)
    (today : PyDate) (op : Bool) (mode : String) (fc : Option String)
    (hd : "Data" ∈ df.cols)
    (hnone : ∀ r ∈ df.rows, pdToDatetime (getCell r "Data") = none) :
    calc_period df col "TOTAL" today "Data" op mode fc = .ok none := by
  by_cases hc : col ∈ df.cols
  · unfold calc_period
    rw [if_pos hc, if_pos hd]
    simp only [List.map_map, maskFilter_map, coFilter_filter,
      filter_posKeep, Function.comp]
    have hfil : df.rows.filter (fun r =>
        dateMask (resolve_start (df.rows.map
          (fun r => pdToDatetime (getCell r "Data"))) "TOTAL" today)
          (pdToDatetime (getCell r "Data")) && coKeep df fc r) = [] := by
      rw [List.filter_eq_nil_iff]
      intro r hr
      rw [hnone r hr, dateMask_none_right]
      simp
    rw [hfil]
    rfl
  · unfold calc_period
    rw [if_neg hc]

/-- Claim C4 witness: a table whose only date cell is garbled. -/
theorem calc_period_total_empty_null_witness :
    ("Data" : String) ∈
      (⟨["Data", "X"],
        [[("Data", Cell.str ['o', 'o', 'p', 's']), ("X", Cell.num 3)]]⟩ :
        DF).cols ∧
    calc_period
        ⟨["Data", "X"],
         [[("Data", Cell.str ['o', 'o', 'p', 's']), ("X", Cell.num 3)]]⟩
        "X" "TOTAL" ⟨2024, 1, 1⟩ "Data" false "sum" none = .ok none :=
  ⟨by decide,
    calc_period_total_empty_null
      ⟨["Data", "X"],
       [[("Data", Cell.str ['o', 'o', 'p', 's']), ("X", Cell.num 3)]]⟩
      "X" ⟨2024, 1, 1⟩ false "sum" none (by decide)
      (by with_unfolding_all decide)⟩

/-- Claim C9: `calc_period` returns null for every period tag when the
requested column is absent from the schema (line 395) or all of its
values are null (the value set of line 422 is then empty), and
`format_metric` renders a null metric as the sentinel `"-"` for every
declared format — so such a metric shows `"-"` for all five periods
instead of raising. -/
theorem calc_period_missing_column_null :
    (∀ (df : DF) (col freq : String) (today : PyDate) (op : Bool)
        (mode : String) (fc : Option String), col ∉ df.cols →
        calc_period df col freq today "Data" op mode fc = .ok none) ∧
    (∀ (df : DF) (col freq : String) (today : PyDate) (op : Bool)
        (mode : String) (fc : Option String), "Data" ∈ df.cols →
        (∀ r ∈ df.rows, pdToNumeric (getCell r col) = none) →
        calc_period df col freq today "Data" op mode fc = .ok none) ∧
    (∀ fmt : String, format_metric none fmt = .ok ['-']) := by
  refine ⟨?_, ?_, ?_⟩
  · intro df col freq today op mode fc h
    unfold calc_period
    rw [if_neg h]
  · intro df col freq today op mode fc hd hnull
    by_cases hc : col ∈ df.cols
    · unfold calc_period
      rw [if_pos hc, if_pos hd]
      simp only [List.map_map, maskFilter_map, coFilter_filter,
        filter_posKeep, Function.comp]
      have hvals : (df.rows.filter (fun r =>
          dateMask (resolve_start (df.rows.map
            (fun r => pdToDatetime (getCell r "Data"))) freq today)
            (pdToDatetime (getCell r "Data")) &&
              coKeep df fc r)).filterMap
          (fun r => pdToNumeric (getCell r col)) = [] := by
        rw [List.filterMap_eq_nil_iff]
        intro r hr
        exact hnull r (List.mem_filter.mp hr).1
      rw [hvals]
      rfl
    · unfold calc_period
      rw [if_neg hc]
  · intro fmt
    rfl

/-- Claim C6, amended: the correlation matrix over any non-empty
complete-case subset is symmetric, and a diagonal entry is exactly `1.0`
whenever that column is non-constant there (positive sum of squared
deviations); for a constant column — or a single complete-case row — the
diagonal entry is `NaN` (pandas `nancorr` divides by
`sqrt(ssqdmx * ssqdmy)`, which is then zero). -/
theorem corr_matrix_symm_diag :
    (∀ (rows : List (List Cell)) (i j : ℕ),
        corr_matrix rows i j = corr_matrix rows j i) ∧
    (∀ (rows : List (List Cell)) (i : ℕ),
        0 < ssqdm (colV (corrCC rows) i) → corr_matrix rows i i = some 1) := by
  constructor
  · intro rows i j
    unfold corr_matrix corrEntry
    rw [covL_comm, mul_comm (ssqdm (colV (corrCC rows) i)),
      mul_comm ((ssqdm (colV (corrCC rows) i) : ℝ))]
  · intro rows i h
    unfold corr_matrix corrEntry
    rw [if_neg (mul_ne_zero h.ne' h.ne'), covL_self,
      Real.sqrt_mul_self (by exact_mod_cast h.le),
      div_self (by exact_mod_cast h.ne')]

/-- Claim C6 witness: on the complete-case column `[0, 1]` the diagonal
entry is exactly `1.0`. -/
theorem corr_matrix_symm_diag_witness :
    corr_matrix [[Cell.num 0], [Cell.num 1]] 0 0 = some 1 :=
  corr_matrix_symm_diag.2 [[Cell.num 0], [Cell.num 1]] 0
    (by with_unfolding_all decide)

/-- Claim C6 counterexample: two complete-case rows whose first column
is constant (`[1, 1]`): the diagonal entry of that column is `NaN`
(`none`), not `1.0`. -/
theorem corr_matrix_diag_nan_counterexample :
    corr_matrix [[Cell.num 1, Cell.num 1], [Cell.num 1, Cell.num 2]] 0 0 =
      none := by
  have h0 : ssqdm (colV (corrCC
      [[Cell.num 1, Cell.num 1], [Cell.num 1, Cell.num 2]]) 0) = 0 := by
    with_unfolding_all decide
  unfold corr_matrix corrEntry
  rw [h0, zero_mul, if_pos rfl]

/-- Claim C9 witness: a column absent from the schema gives null, and
null formats to `"-"`. -/
theorem calc_period_missing_column_null_witness :
    ("Faltante" : String) ∉
      (⟨["Data", "X"], [[("Data", Cell.date 2024 1 5), ("X", Cell.num 2)]]⟩ :
        DF).cols ∧
    calc_period
        ⟨["Data", "X"], [[("Data", Cell.date 2024 1 5), ("X", Cell.num 2)]]⟩
        "Faltante" "YTD" ⟨2024, 1, 10⟩ "Data" false "mean" none = .ok none ∧
    format_metric none "pace" = .ok ['-'] :=
  ⟨by decide,
    calc_period_missing_column_null.1
      ⟨["Data", "X"], [[("Data", Cell.date 2024 1 5), ("X", Cell.num 2)]]⟩
      "Faltante" "YTD" ⟨2024, 1, 10⟩ false "mean" none (by decide),
    calc_period_missing_column_null.2.2 "pace"⟩

/-- Claim C2, amended: `calc_period` does not take "today" as a
parameter — it reads the system clock internally (`dt.date.today()`,
line 402), modelled here as the explicit parameter `today`.  For a fixed
clock date the result is determined by the listed inputs, and for the
`TOTAL` period it does not depend on the clock at all: two invocations
on any two dates agree. -/
theorem calc_period_total_clock_independent (df : DF) (col : String)
    (t1 t2 : PyDate) (dc : String) (op : Bool) (mode : String)
    (fc : Option String) :
    calc_period df col "TOTAL" t1 dc op mode fc =
      calc_period df col "TOTAL" t2 dc op mode fc := rfl

/-- Claim C2 counterexample: the same table, column, mode and flags
evaluated with the clock reading 2024-01-01 and 2024-01-08 give
different WTD results (`some 1` versus `none`), so the aggregator's
result is not independent of when it runs. -/
theorem calc_period_clock_dependent_counterexample :
    calc_period
        ⟨["Data", "X"], [[("Data", Cell.date 2024 1 1), ("X", Cell.num 1)]]⟩
        "X" "WTD" ⟨2024, 1, 1⟩ "Data" false "sum" none ≠
      calc_period
        ⟨["Data", "X"], [[("Data", Cell.date 2024 1 1), ("X", Cell.num 1)]]⟩
        "X" "WTD" ⟨2024, 1, 8⟩ "Data" false "sum" none := by
  with_unfolding_all decide

/-- Claim C3 (code bug): for a `(date, type)` group whose calories are
all missing, `_agg` yields calories `0.0` — a number, not null.
`g["Calorias"].sum(skipna=True)` uses pandas' default `min_count=0`,
under which the sum of an all-missing series is `0.0`. -/
theorem agg_all_missing_calories_zero :
    (_agg [⟨some 5, some 30, none, some 120, some 40⟩,
           ⟨some 3, some 20, none, none, none⟩]).calorias = some 0 := by
  with_unfolding_all decide

/-- Claim C5 (code bug): `format_pace` is not total — on a non-numeric,
non-empty string the `float(value)` call in its guard (line 445) runs
before the `try` block and raises an uncaught `ValueError`.  The other
two converters do recover: `format_hours` returns `"-"` and
`mmss_to_minutes` returns null on the same input. -/
theorem format_pace_raises_on_nonnumeric :
    format_pace (.str ['a', 'b', 'c']) = .error () ∧
    format_hours (.str ['a', 'b', 'c']) = ['-'] ∧
    mmss_to_minutes (.str ['a', 'b', 'c']) = none := by
  refine ⟨?_, ?_, ?_⟩ <;> with_unfolding_all decide

/-- Claim C7: the derived pace of a `(date, type)` group is summed
duration over summed distance when the summed distance is strictly
positive and null otherwise; on distances `[2, 8]` km with durations
`[10, 50]` min it is `6` min/km, which differs from the mean `45/8 =
5.625` of the per-session paces `10/2` and `50/8`. -/
theorem agg_pace_ratio_of_sums :
    (∀ g : List ActRow, (_agg g).paceNumDaily =
        if 0 < distSum g then some (durSum g / distSum g) else none) ∧
    (_agg [⟨some 2, some 10, none, none, none⟩,
           ⟨some 8, some 50, none, none, none⟩]).paceNumDaily = some 6 ∧
    ((10 : ℚ) / 2 + 50 / 8) / 2 = 45 / 8 ∧ (45 : ℚ) / 8 ≠ 6 := by
  refine ⟨?_, ?_, ?_, ?_⟩
  · intro g
    simp only [_agg]
    by_cases h : 0 < distSum g
    · rw [if_pos ⟨h.ne', h⟩, if_pos h]
    · rw [if_neg (fun hc => h hc.2), if_neg h]
  · with_unfolding_all decide
  · norm_num
  · norm_num

/-- Claim C10: any aggregation mode other than `"sum"` — `"median"`,
`"max"`, the empty string — falls through to the arithmetic mean
(line 430 tests only `mode == "sum"`); it is never rejected. -/
theorem calc_period_unknown_mode_mean (df : DF) (col freq : String)
    (today : PyDate) (dc : String) (op : Bool) (fc : Option String)
    (mode : String) (h : mode ≠ "sum") :
    calc_period df col freq today dc op mode fc =
      calc_period df col freq today dc op "mean" fc := by
  unfold calc_period
  simp only [aggVals_of_ne_sum h]

/-- Claim C8, amended: for every `"mm:ss"` string other than `"0:00"`
(minutes a natural number, seconds `0..59`), `mmss_to_minutes` parses it
to `m + s/60` decimal minutes and `format_pace` renders that value back
to the identical string — the round trip is exact, not merely up to
rounding.  `"0:00"` is excluded because `format_pace` maps the value `0`
to the sentinel `"-"`. -/
theorem mmss_roundtrip (m s : ℕ) (hs : s ≤ 59) (hnz : ¬(m = 0 ∧ s = 0)) :
    mmss_to_minutes (.str (mmssChars m s)) = some ((m : ℚ) + (s : ℚ) / 60) ∧
    format_pace (.num ((m : ℚ) + (s : ℚ) / 60)) = .ok (mmssChars m s) := by
  have hall : ∀ c ∈ mmssChars m s, c.isDigit = true ∨ c = ':' := by
    intro c hc
    rcases List.mem_append.mp hc with hm | hm
    · exact .inl (natToChars_all_digit m c hm)
    · rcases List.mem_cons.mp hm with rfl | hm2
      · exact .inr rfl
      · exact .inl (pad2nat_all_digit s c hm2)
  constructor
  · -- parse direction
    have hne := mmssChars_ne_nil m s
    have htrim : trimChars (mmssChars m s) = mmssChars m s := by
      refine trimChars_eq_self (fun c hc => ?_)
      rcases hall c hc with hd | rfl
      · exact isDigit_not_space hd
      · decide
    have hmap : (mmssChars m s).map (fun c => if c = ',' then '.' else c) =
        mmssChars m s := by
      have hpt : ∀ c ∈ mmssChars m s,
          (fun c => if c = ',' then '.' else c) c = id c := by
        intro c hc
        rcases hall c hc with hd | rfl
        · exact if_neg (isDigit_ne hd (by decide))
        · rfl
      rw [List.map_congr_left hpt, List.map_id]
    have hsplit : splitOnChar ':' (mmssChars m s) =
        [natToChars m, pad2nat s] := by
      unfold mmssChars
      rw [splitOnChar_append (pad2nat s)
          (fun hm => absurd (natToChars_all_digit m ':' hm) (by decide)),
        splitOnChar_eq_single
          (fun hm => absurd (pad2nat_all_digit s ':' hm) (by decide))]
    simp only [mmss_to_minutes, pdIsna, eqEmptyStr_str_ne_nil hne,
      Bool.or_self, Bool.false_or, if_false, Bool.false_eq_true,
      htrim, hmap, hsplit, parseFloat_natToChars, parseFloat_pad2nat]
  · -- format direction
    have hq : ((m : ℚ) + (s : ℚ) / 60) ≠ 0 := by
      intro h0
      have hsum : (m : ℚ) = 0 ∧ (s : ℚ) / 60 = 0 :=
        (add_eq_zero_iff_of_nonneg (by positivity) (by positivity)).mp h0
      apply hnz
      refine ⟨by exact_mod_cast hsum.1, ?_⟩
      have h2 := hsum.2
      rw [div_eq_zero_iff] at h2
      rcases h2 with h2 | h2
      · exact_mod_cast h2
      · norm_num at h2
    have htr : pyTrunc ((m : ℚ) + (s : ℚ) / 60) = (m : ℤ) := by
      unfold pyTrunc
      rw [if_pos (by positivity), floor_add_frac m s hs]
    have hrd : pyRound ((((m : ℚ) + (s : ℚ) / 60) - ((m : ℤ) : ℚ)) * 60) =
        (s : ℤ) := by
      rw [show ((((m : ℚ) + (s : ℚ) / 60) - ((m : ℤ) : ℚ)) * 60) = ((s : ℚ))
          by push_cast; ring]
      exact pyRound_natCast s
    simp only [format_pace, pdIsna, eqEmptyStr, pyFloat, Bool.or_self,
      if_false, Bool.false_eq_true]
    rw [if_neg hq, htr, hrd, intStr_natCast, pad02_natCast]
    rfl

/-- Claim C8 witness: the round trip at the concrete string `"5:30"`. -/
theorem mmss_roundtrip_witness :
    (5 : ℕ) ≤ 59 ∧
    mmss_to_minutes (.str (mmssChars 5 30)) =
      some ((5 : ℚ) + (30 : ℚ) / 60) ∧
    format_pace (.num ((5 : ℚ) + (30 : ℚ) / 60)) = .ok (mmssChars 5 30) :=
  ⟨by decide,
    (mmss_roundtrip 5 30 (by decide) (by decide)).1,
    (mmss_roundtrip 5 30 (by decide) (by decide)).2⟩

/-- Claim C8 counterexample: the valid `"mm:ss"` string `"0:00"` does
not round-trip — it parses to `0` minutes and `format_pace` renders `0`
as the sentinel `"-"`, not `"0:00"`. -/
theorem mmss_roundtrip_zero_counterexample :
    mmss_to_minutes (.str ['0', ':', '0', '0']) = some 0 ∧
    format_pace (.num 0) = .ok ['-'] ∧ (['-'] : List Char) ≠ ['0', ':', '0', '0'] := by
  refine ⟨?_, ?_, ?_⟩ <;> with_unfolding_all decide

/-- Claim C10 witness: the concrete mode `"median"` agrees with
`"mean"` on a concrete table. -/
theorem calc_period_unknown_mode_mean_witness :
    ("median" : String) ≠ "sum" ∧
    calc_period
        ⟨["Data", "X"], [[("Data", Cell.date 2024 1 5), ("X", Cell.num 4)]]⟩
        "X" "MTD" ⟨2024, 1, 10⟩ "Data" false "median" none =
      calc_period
        ⟨["Data", "X"], [[("Data", Cell.date 2024 1 5), ("X", Cell.num 4)]]⟩
        "X" "MTD" ⟨2024, 1, 10⟩ "Data" false "mean" none :=
  ⟨by decide,
    calc_period_unknown_mode_mean _ "X" "MTD" ⟨2024, 1, 10⟩ "Data" false
      none "median" (by decide)⟩

end Garmin
